import Mathlib

/-!
Shallow embedding of the derivation core of the kona rollup node:
the derivation actor (crates/node/service/src/actors/derivation.rs) and
the pipeline builder (crates/protocol/derive/src/pipeline/builder.rs).

The asynchronous actor is modelled as a pure state machine: one select
iteration of DerivationActor::start becomes a function on an inbound
event, the pipeline trait object becomes a record of state-transition
functions over an abstract state type, and the potentially unbounded
stepping loop of produce_next_safe_payload is given explicit fuel.
Interactions with the outside world (pipeline steps, signals, system
config fetches, sends on the attributes_out channel) are recorded in an
event trace so that theorems can speak about what was and was not done.
-/

/-- L1 block reference, kona_protocol::BlockInfo. Hashes are abstracted
to naturals. -/
structure BlockInfo where
  hash : Nat
  number : Nat
  parent_hash : Nat
  timestamp : Nat
deriving DecidableEq

/-- A block number and hash pair, alloy BlockNumHash. -/
structure BlockNumHash where
  number : Nat
  hash : Nat
deriving DecidableEq

/-- L2 block reference, kona_protocol::L2BlockInfo: the block info plus
its L1 origin and sequence number within the epoch. -/
structure L2BlockInfo where
  block_info : BlockInfo
  l1_origin : BlockNumHash
  seq_num : Nat
deriving DecidableEq

/-- Per-block system configuration. The actor only passes it through
opaquely, so only representative fields are kept. -/
structure SystemConfig where
  batcher_address : Nat
  scalar : Nat
  gas_limit : Nat
deriving DecidableEq

/-- Payload attributes with their parent block,
kona_protocol::OpAttributesWithParent. The actor treats the inner
payload opaquely; it is abstracted to a natural. -/
structure OpAttributesWithParent where
  parent : L2BlockInfo
  payload : Nat
  is_last_in_span : Bool
deriving DecidableEq

/-- Pipeline errors, kona_derive::errors::PipelineError. Only the
variants the actor inspects are distinguished; the rest collapse into
StageError. -/
inductive PipelineError where
  | NotEnoughData
  | Eof
  | MissingOrigin
  | StageError (code : Nat)
deriving DecidableEq

/-- Reset errors, kona_derive::errors::ResetError. Only the variants
the actor inspects are distinguished. -/
inductive ResetError where
  | HoloceneActivation
  | ReorgDetected (expected new : Nat)
  | ResetOther (code : Nat)
deriving DecidableEq

/-- Top-level pipeline error kind, kona_derive::errors::PipelineErrorKind. -/
inductive PipelineErrorKind where
  | Temporary (e : PipelineError)
  | Reset (e : ResetError)
  | Critical (e : PipelineError)
deriving DecidableEq

/-- PipelineError::crit: wraps the error into the Critical kind. -/
def PipelineError.crit (e : PipelineError) : PipelineErrorKind :=
  PipelineErrorKind.Critical e

/-- The matches!(e, ResetError::HoloceneActivation) test from the actor. -/
def ResetError.isHoloceneActivation : ResetError → Bool
  | .HoloceneActivation => true
  | _ => false

/-- Reset signal payload, kona_derive::types::ResetSignal. -/
structure ResetSignal where
  l2_safe_head : L2BlockInfo
  l1_origin : BlockInfo
  system_config : Option SystemConfig
deriving DecidableEq

/-- Activation signal payload, kona_derive::types::ActivationSignal. -/
structure ActivationSignal where
  l2_safe_head : L2BlockInfo
  l1_origin : BlockInfo
  system_config : Option SystemConfig
deriving DecidableEq

/-- Control signal to the pipeline, kona_derive::types::Signal. -/
inductive Signal where
  | Reset (s : ResetSignal)
  | Activation (s : ActivationSignal)
  | FlushChannel
  | ProvideBlock (b : L2BlockInfo)
deriving DecidableEq

/-- ResetSignal::signal. -/
def ResetSignal.signal (s : ResetSignal) : Signal := Signal.Reset s

/-- ActivationSignal::signal. -/
def ActivationSignal.signal (s : ActivationSignal) : Signal := Signal.Activation s

/-- Result of one pipeline step, kona_derive::types::StepResult. -/
inductive StepResult where
  | PreparedAttributes
  | AdvancedOrigin
  | OriginAdvanceErr (e : PipelineErrorKind)
  | StepFailed (e : PipelineErrorKind)
deriving DecidableEq

/-- Errors of the derivation actor, DerivationError in derivation.rs.
The boxed SendError payload is not observable and is dropped. -/
inductive DerivationError where
  | Pipeline (e : PipelineErrorKind)
  | Yield
  | Sender
  | SignalReceiveFailed
deriving DecidableEq

/-- Abstract model of the Pipeline + SignalReceiver trait object owned
by the actor. The pipeline state has abstract type sigma; every
operation that takes &mut self in Rust threads the state. -/
structure PipelineModel (σ : Type) where
  step : σ → L2BlockInfo → StepResult × σ
  origin : σ → Option BlockInfo
  next : σ → Option OpAttributesWithParent × σ
  signal : σ → Signal → Except PipelineErrorKind Unit × σ
  system_config_by_number : σ → Nat → Except PipelineErrorKind SystemConfig × σ

/-- Observable interactions of the actor with the pipeline and with the
attributes_out channel, recorded as a trace. -/
inductive Event where
  | stepCall (hd : L2BlockInfo)
  | cfgFetch (number : Nat)
  | sigSent (s : Signal)
  | attrsOut (a : OpAttributesWithParent)
deriving DecidableEq

/-- Projection of a trace event to a sent attributes payload. -/
def Event.attrsPayload : Event → Option OpAttributesWithParent
  | .attrsOut a => some a
  | _ => none

/-- The attributes sent on the attributes_out channel in a trace, in order. -/
def sentAttrs (tr : List Event) : List OpAttributesWithParent :=
  tr.filterMap Event.attrsPayload

/-- Outcome of one iteration of the produce_next_safe_payload loop:
either go around the loop again or return from the function. -/
inductive LoopOutcome (σ : Type) where
  | cont (st : σ)
  | ret (r : Except DerivationError OpAttributesWithParent) (st : σ)

/-- The common tail of a loop iteration: if let Some(attrs) =
self.pipeline.next() then return Ok(attrs), else loop again. -/
def loopTail {σ : Type} (p : PipelineModel σ) (st : σ) (tr : List Event) :
    LoopOutcome σ × List Event :=
  match p.next st with
  | (some attrs, st') => (.ret (.ok attrs) st', tr)
  | (none, st') => (.cont st', tr)

/-- The signal constructed by the Reset arm of the loop: an
ActivationSignal on HoloceneActivation, a ResetSignal otherwise, in
both cases carrying the safe head, the current origin and the fetched
system config. -/
def resetBranchSignal (re : ResetError) (hd : L2BlockInfo) (org : BlockInfo)
    (cfg : SystemConfig) : Signal :=
  if re.isHoloceneActivation then
    (ActivationSignal.mk hd org (some cfg)).signal
  else
    (ResetSignal.mk hd org (some cfg)).signal

/-- The OriginAdvanceErr and StepFailed arms of the loop body: the
inner match over the PipelineErrorKind in produce_next_safe_payload. -/
def stepErrBranch {σ : Type} (p : PipelineModel σ) (hd : L2BlockInfo)
    (e : PipelineErrorKind) (st : σ) (tr : List Event) :
    LoopOutcome σ × List Event :=
  match e with
  | .Temporary pe =>
      if pe = PipelineError.NotEnoughData then
        (.cont st, tr)
      else
        (.ret (.error .Yield) st, tr)
  | .Reset re =>
      match p.system_config_by_number st hd.block_info.number with
      | (.error e', st₁) =>
          (.ret (.error (.Pipeline e')) st₁, tr ++ [.cfgFetch hd.block_info.number])
      | (.ok cfg, st₁) =>
          let tr₁ := tr ++ [.cfgFetch hd.block_info.number]
          match p.origin st₁ with
          | none =>
              (.ret (.error (.Pipeline (PipelineError.MissingOrigin.crit))) st₁, tr₁)
          | some org =>
              let sig := resetBranchSignal re hd org cfg
              match p.signal st₁ sig with
              | (.error e', st₂) =>
                  (.ret (.error (.Pipeline e')) st₂, tr₁ ++ [.sigSent sig])
              | (.ok _, st₂) =>
                  loopTail p st₂ (tr₁ ++ [.sigSent sig])
  | .Critical _ =>
      (.ret (.error (.Pipeline e)) st, tr)

/-- One iteration of the produce_next_safe_payload loop body,
mirroring the match on self.pipeline.step(self.l2_safe_head). The
Temporary(NotEnoughData) arm continues without reaching the next()
check; every other non-returning arm falls through to it. -/
def produceStepBody {σ : Type} (p : PipelineModel σ) (hd : L2BlockInfo) (st : σ) :
    LoopOutcome σ × List Event :=
  match p.step st hd with
  | (.PreparedAttributes, st₁) =>
      loopTail p st₁ [.stepCall hd]
  | (.AdvancedOrigin, st₁) =>
      match p.origin st₁ with
      | none =>
          (.ret (.error (.Pipeline (PipelineError.MissingOrigin.crit))) st₁, [.stepCall hd])
      | some _ =>
          loopTail p st₁ [.stepCall hd]
  | (.OriginAdvanceErr e, st₁) =>
      stepErrBranch p hd e st₁ [.stepCall hd]
  | (.StepFailed e, st₁) =>
      stepErrBranch p hd e st₁ [.stepCall hd]

/-- DerivationActor::produce_next_safe_payload, with explicit fuel for
the unbounded loop; none means the fuel ran out before the loop
returned. -/
def produceNextSafePayload {σ : Type} (p : PipelineModel σ) (hd : L2BlockInfo) :
    Nat → σ → Option (Except DerivationError OpAttributesWithParent × σ × List Event)
  | 0, _ => none
  | fuel + 1, st =>
      match produceStepBody p hd st with
      | (.ret r st', tr) => some (r, st', tr)
      | (.cont st', tr) =>
          match produceNextSafePayload p hd fuel st' with
          | none => none
          | some (r, st'', tr') => some (r, st'', tr ++ tr')

/-- The state of the DerivationActor that the modelled operations read
and write: the pipeline, the targeted safe head, the engine_ready flag
and whether sync_complete_rx has been closed. -/
structure ActorState (σ : Type) where
  pipeline : σ
  l2_safe_head : L2BlockInfo
  engine_ready : Bool
  sync_complete_closed : Bool

/-- DerivationActor::new: engine_ready starts false; the
sync_complete receiver starts open. -/
def DerivationActor.new {σ : Type} (pipeline : σ) (l2_safe_head : L2BlockInfo) :
    ActorState σ :=
  { pipeline := pipeline
    l2_safe_head := l2_safe_head
    engine_ready := false
    sync_complete_closed := false }

/-- Environment of one processing tick: the value currently held by the
engine_l2_safe_head watch channel (modelled as constant within the
tick) and whether a send on attributes_out fails because the receiver
was dropped. -/
structure ProcessEnv where
  engineSafeHead : L2BlockInfo
  sendFails : Bool

/-- DerivationActor::process: skip when the engine is not ready or has
not advanced past the actor's safe head; otherwise drive
produce_next_safe_payload, absorb Yield, send the attributes and adopt
the engine safe head. -/
def process {σ : Type} (p : PipelineModel σ) (env : ProcessEnv) (fuel : Nat)
    (a : ActorState σ) :
    Option (Except DerivationError Unit × ActorState σ × List Event) :=
  if !a.engine_ready then
    some (.ok (), a, [])
  else if env.engineSafeHead.block_info.number ≤ a.l2_safe_head.block_info.number then
    some (.ok (), a, [])
  else
    match produceNextSafePayload p a.l2_safe_head fuel a.pipeline with
    | none => none
    | some (.error .Yield, st', tr) =>
        some (.ok (), { a with pipeline := st' }, tr)
    | some (.error e, st', tr) =>
        some (.error e, { a with pipeline := st' }, tr)
    | some (.ok attrs, st', tr) =>
        if env.sendFails then
          some (.error .Sender, { a with pipeline := st' }, tr)
        else
          some (.ok (),
            { a with pipeline := st', l2_safe_head := env.engineSafeHead },
            tr ++ [.attrsOut attrs])

/-- DerivationActor::signal: forward the signal to the pipeline; a
pipeline error is only logged, never propagated. -/
def signalHandle {σ : Type} (p : PipelineModel σ) (st : σ) (s : Signal) :
    σ × List Event :=
  ((p.signal st s).2, [.sigSent s])

/-- One inbound event of the select loop in DerivationActor::start.
The receiver arms carry the Option that recv returned; none means the
channel is closed. -/
inductive ActorInbound where
  | cancelled
  | syncComplete
  | l1HeadUpdate (msg : Option BlockInfo)
  | signalMsg (s : Option Signal)

/-- Outcome of one select iteration: keep looping with a new state, or
return from start with a result. -/
inductive StartOutcome (σ : Type) where
  | cont (a : ActorState σ)
  | exit (r : Except DerivationError Unit)

/-- One iteration of the select loop in DerivationActor::start,
dispatching on which arm fired; none means the fuel inside a
processing tick ran out. -/
def startIter {σ : Type} (p : PipelineModel σ) (env : ProcessEnv) (fuel : Nat)
    (a : ActorState σ) : ActorInbound → Option (StartOutcome σ × List Event)
  | .cancelled => some (.exit (.ok ()), [])
  | .syncComplete =>
      if a.engine_ready then
        some (.cont a, [])
      else
        match process p env fuel
            { a with engine_ready := true, sync_complete_closed := true } with
        | none => none
        | some (.ok _, a', tr) => some (.cont a', tr)
        | some (.error e, _, tr) => some (.exit (.error e), tr)
  | .l1HeadUpdate none => some (.exit (.ok ()), [])
  | .l1HeadUpdate (some _) =>
      match process p env fuel a with
      | none => none
      | some (.ok _, a', tr) => some (.cont a', tr)
      | some (.error e, _, tr) => some (.exit (.error e), tr)
  | .signalMsg none => some (.exit (.error .SignalReceiveFailed), [])
  | .signalMsg (some s) =>
      let (st', tr) := signalHandle p a.pipeline s
      some (.cont { a with pipeline := st' }, tr)

/-- Rollup configuration. The builder only clones and threads it, so
only representative fields are kept. -/
structure RollupConfig where
  block_time : Nat
  channel_timeout : Nat
  seq_window_size : Nat
deriving DecidableEq

/-- The L1Traversal stage. Modelled from the spec: its source is not
under src; it owns the chain provider and the current origin block,
which is None before the first advance. -/
structure L1Traversal (P : Type) where
  chain_provider : P
  rollup_config : RollupConfig
  block : Option BlockInfo
deriving DecidableEq

/-- Modelled from the spec: L1Traversal::new stores the provider and
config with no origin block yet. -/
def L1Traversal.new {P : Type} (chain_provider : P) (cfg : RollupConfig) :
    L1Traversal P :=
  { chain_provider := chain_provider, rollup_config := cfg, block := none }

/-- The L1Retrieval stage. Modelled from the spec: its source is not
under src; it wraps its predecessor stage and the DA provider. -/
structure L1Retrieval (DAP Prev : Type) where
  prev : Prev
  dap : DAP
deriving DecidableEq

/-- Modelled from the spec: L1Retrieval::new stores the previous stage
and the data availability provider. -/
def L1Retrieval.new {DAP Prev : Type} (prev : Prev) (dap : DAP) :
    L1Retrieval DAP Prev :=
  { prev := prev, dap := dap }

/-- The FrameQueue stage. Modelled from the spec: its source is not
under src; it wraps its predecessor stage. -/
structure FrameQueue (Prev : Type) where
  prev : Prev
  rollup_config : RollupConfig
deriving DecidableEq

/-- Modelled from the spec: FrameQueue::new stores the previous stage
and the config. -/
def FrameQueue.new {Prev : Type} (prev : Prev) (cfg : RollupConfig) :
    FrameQueue Prev :=
  { prev := prev, rollup_config := cfg }

/-- The ChannelProvider stage. Modelled from the spec: its source is
not under src; it wraps its predecessor stage. -/
structure ChannelProvider (Prev : Type) where
  rollup_config : RollupConfig
  prev : Prev
deriving DecidableEq

/-- Modelled from the spec: ChannelProvider::new stores the config and
the previous stage. -/
def ChannelProvider.new {Prev : Type} (cfg : RollupConfig) (prev : Prev) :
    ChannelProvider Prev :=
  { rollup_config := cfg, prev := prev }

/-- The ChannelReader stage. Modelled from the spec: its source is not
under src; it wraps its predecessor stage. -/
structure ChannelReader (Prev : Type) where
  prev : Prev
  rollup_config : RollupConfig
deriving DecidableEq

/-- Modelled from the spec: ChannelReader::new stores the previous
stage and the config. -/
def ChannelReader.new {Prev : Type} (prev : Prev) (cfg : RollupConfig) :
    ChannelReader Prev :=
  { prev := prev, rollup_config := cfg }

/-- The BatchStream stage. Modelled from the spec: its source is not
under src; it wraps its predecessor stage and an L2 chain provider. -/
structure BatchStream (Prev T : Type) where
  prev : Prev
  rollup_config : RollupConfig
  l2_chain_provider : T
deriving DecidableEq

/-- Modelled from the spec: BatchStream::new stores the previous
stage, the config and the L2 provider. -/
def BatchStream.new {Prev T : Type} (prev : Prev) (cfg : RollupConfig)
    (l2 : T) : BatchStream Prev T :=
  { prev := prev, rollup_config := cfg, l2_chain_provider := l2 }

/-- The BatchProvider stage. Modelled from the spec: its source is not
under src; it wraps its predecessor stage and an L2 chain provider. -/
structure BatchProvider (Prev T : Type) where
  rollup_config : RollupConfig
  prev : Prev
  l2_chain_provider : T
deriving DecidableEq

/-- Modelled from the spec: BatchProvider::new stores the config, the
previous stage and the L2 provider. -/
def BatchProvider.new {Prev T : Type} (cfg : RollupConfig) (prev : Prev)
    (l2 : T) : BatchProvider Prev T :=
  { rollup_config := cfg, prev := prev, l2_chain_provider := l2 }

/-- The AttributesQueue stage. Modelled from the spec: its source is
not under src; it wraps its predecessor stage and the attributes
builder. -/
structure AttributesQueue (Prev B : Type) where
  rollup_config : RollupConfig
  prev : Prev
  builder : B
deriving DecidableEq

/-- Modelled from the spec: AttributesQueue::new stores the config,
the previous stage and the attributes builder. -/
def AttributesQueue.new {Prev B : Type} (cfg : RollupConfig) (prev : Prev)
    (b : B) : AttributesQueue Prev B :=
  { rollup_config := cfg, prev := prev, builder := b }

/-- The DerivationPipeline. Modelled from the spec: its source is not
under src; it owns the top stage, the config and the L2 provider. -/
structure DerivationPipeline (S T : Type) where
  attributes : S
  rollup_config : RollupConfig
  l2_chain_provider : T
deriving DecidableEq

/-- Modelled from the spec: DerivationPipeline::new stores the top
stage, the config and the L2 provider. -/
def DerivationPipeline.new {S T : Type} (attributes : S) (cfg : RollupConfig)
    (l2 : T) : DerivationPipeline S T :=
  { attributes := attributes, rollup_config := cfg, l2_chain_provider := l2 }

/-- Type alias chain from builder.rs: the L1Traversal stage. -/
abbrev L1TraversalStage (P : Type) := L1Traversal P

/-- Type alias chain from builder.rs: the L1Retrieval stage. -/
abbrev L1RetrievalStage (DAP P : Type) := L1Retrieval DAP (L1TraversalStage P)

/-- Type alias chain from builder.rs: the FrameQueue stage. -/
abbrev FrameQueueStage (DAP P : Type) := FrameQueue (L1RetrievalStage DAP P)

/-- Type alias chain from builder.rs: the ChannelProvider stage. -/
abbrev ChannelProviderStage (DAP P : Type) := ChannelProvider (FrameQueueStage DAP P)

/-- Type alias chain from builder.rs: the ChannelReader stage. -/
abbrev ChannelReaderStage (DAP P : Type) := ChannelReader (ChannelProviderStage DAP P)

/-- Type alias chain from builder.rs: the BatchStream stage. -/
abbrev BatchStreamStage (DAP P T : Type) := BatchStream (ChannelReaderStage DAP P) T

/-- Type alias chain from builder.rs: the BatchProvider stage. -/
abbrev BatchProviderStage (DAP P T : Type) := BatchProvider (BatchStreamStage DAP P T) T

/-- Type alias chain from builder.rs: the AttributesQueue stage. -/
abbrev AttributesQueueStage (DAP P T B : Type) :=
  AttributesQueue (BatchProviderStage DAP P T) B

/-- The PipelineBuilder with its optional fields, builder.rs. -/
structure PipelineBuilder (B P T D : Type) where
  l2_chain_provider : Option T
  dap_source : Option D
  chain_provider : Option P
  builder : Option B
  origin : Option BlockInfo
  rollup_config : Option RollupConfig
deriving DecidableEq

/-- PipelineBuilder::new / Default: every field unset. -/
def PipelineBuilder.new (B P T D : Type) : PipelineBuilder B P T D :=
  { l2_chain_provider := none
    dap_source := none
    chain_provider := none
    builder := none
    origin := none
    rollup_config := none }

/-- Result of building: Rust returns the pipeline directly and panics
via expect on a missing field, so the embedding distinguishes a normal
return from a panic with its message. -/
inductive BuildResult (α : Type) where
  | ok (value : α)
  | panicked (msg : String)
deriving DecidableEq

/-- PipelineBuilder::build via the From impl in builder.rs: expect
each required field in source order (the duplicated expect message for
l2_chain_provider is kept as in the source), then compose the stage
stack and set the traversal origin. -/
def PipelineBuilder.build {B P T D : Type} (b : PipelineBuilder B P T D) :
    BuildResult (DerivationPipeline (AttributesQueueStage D P T B) T) :=
  match b.rollup_config with
  | none => .panicked "rollup_config must be set"
  | some rollup_config =>
    match b.chain_provider with
    | none => .panicked "chain_provider must be set"
    | some chain_provider =>
      match b.l2_chain_provider with
      | none => .panicked "chain_provider must be set"
      | some l2_chain_provider =>
        match b.dap_source with
        | none => .panicked "dap_source must be set"
        | some dap_source =>
          match b.builder with
          | none => .panicked "builder must be set"
          | some attributes_builder =>
            match b.origin with
            | none => .panicked "origin must be set"
            | some origin =>
              let l1_traversal :=
                { L1Traversal.new chain_provider rollup_config with
                    block := some origin }
              let l1_retrieval := L1Retrieval.new l1_traversal dap_source
              let frame_queue := FrameQueue.new l1_retrieval rollup_config
              let channel_provider := ChannelProvider.new rollup_config frame_queue
              let channel_reader := ChannelReader.new channel_provider rollup_config
              let batch_stream :=
                BatchStream.new channel_reader rollup_config l2_chain_provider
              let batch_provider :=
                BatchProvider.new rollup_config batch_stream l2_chain_provider
              let attributes :=
                AttributesQueue.new rollup_config batch_provider attributes_builder
              .ok (DerivationPipeline.new attributes rollup_config l2_chain_provider)

/-- Number of stages below and including an L1Traversal. -/
def L1Traversal.stageCount {P : Type} (_ : L1Traversal P) : Nat := 1

/-- Number of stages below and including an L1Retrieval over a traversal. -/
def L1Retrieval.stageCount {DAP P : Type} (s : L1RetrievalStage DAP P) : Nat :=
  s.prev.stageCount + 1

/-- Number of stages below and including a FrameQueue in the built chain. -/
def FrameQueue.stageCount {DAP P : Type} (s : FrameQueueStage DAP P) : Nat :=
  s.prev.stageCount + 1

/-- Number of stages below and including a ChannelProvider in the built chain. -/
def ChannelProvider.stageCount {DAP P : Type} (s : ChannelProviderStage DAP P) : Nat :=
  s.prev.stageCount + 1

/-- Number of stages below and including a ChannelReader in the built chain. -/
def ChannelReader.stageCount {DAP P : Type} (s : ChannelReaderStage DAP P) : Nat :=
  s.prev.stageCount + 1

/-- Number of stages below and including a BatchStream in the built chain. -/
def BatchStream.stageCount {DAP P T : Type} (s : BatchStreamStage DAP P T) : Nat :=
  s.prev.stageCount + 1

/-- Number of stages below and including a BatchProvider in the built chain. -/
def BatchProvider.stageCount {DAP P T : Type} (s : BatchProviderStage DAP P T) : Nat :=
  s.prev.stageCount + 1

/-- Number of stages below and including an AttributesQueue in the built chain. -/
def AttributesQueue.stageCount {DAP P T B : Type}
    (s : AttributesQueueStage DAP P T B) : Nat :=
  s.prev.stageCount + 1

/-- Stage count of a build result, zero if the build panicked. -/
def BuildResult.stageCount {DAP P T B : Type}
    (r : BuildResult (DerivationPipeline (AttributesQueueStage DAP P T B) T)) : Nat :=
  match r with
  | .ok pl => pl.attributes.stageCount
  | .panicked _ => 0

/-- Appending traces distributes over the sent-attributes projection. -/
theorem sentAttrs_append (t₁ t₂ : List Event) :
    sentAttrs (t₁ ++ t₂) = sentAttrs t₁ ++ sentAttrs t₂ :=
  List.filterMap_append t₁ t₂ Event.attrsPayload

/-- The loop tail leaves the trace unchanged. -/
theorem loopTail_trace {σ : Type} (p : PipelineModel σ) (st : σ) (tr : List Event) :
    (loopTail p st tr).2 = tr := by
  unfold loopTail
  rcases h : p.next st with ⟨o, st'⟩
  cases o <;> simp

/-- The error branch of the loop body sends no attributes. -/
theorem stepErrBranch_sentAttrs {σ : Type} (p : PipelineModel σ) (hd : L2BlockInfo)
    (e : PipelineErrorKind) (st : σ) (tr : List Event) :
    sentAttrs (stepErrBranch p hd e st tr).2 = sentAttrs tr := by
  unfold stepErrBranch
  cases e with
  | Temporary pe =>
      by_cases h : pe = PipelineError.NotEnoughData <;> simp [h]
  | Critical pe => rfl
  | Reset re =>
      rcases hc : p.system_config_by_number st hd.block_info.number with ⟨rc, st₁⟩
      cases rc with
      | error e' =>
          simp [hc, sentAttrs_append, sentAttrs, Event.attrsPayload]
      | ok cfg =>
          simp only [hc]
          rcases ho : p.origin st₁ with _ | org
          · simp [sentAttrs_append, sentAttrs, Event.attrsPayload]
          · rcases hs : p.signal st₁ (resetBranchSignal re hd org cfg) with ⟨rs, st₂⟩
            cases rs with
            | error e' =>
                simp [hs, sentAttrs_append, sentAttrs, Event.attrsPayload]
            | ok u =>
                simp [hs, loopTail_trace, sentAttrs_append, sentAttrs, Event.attrsPayload]

/-- One iteration of the stepping loop sends no attributes. -/
theorem produceStepBody_sentAttrs {σ : Type} (p : PipelineModel σ) (hd : L2BlockInfo)
    (st : σ) : sentAttrs (produceStepBody p hd st).2 = [] := by
  unfold produceStepBody
  rcases hs : p.step st hd with ⟨res, st₁⟩
  cases res with
  | PreparedAttributes =>
      simp [loopTail_trace, sentAttrs, Event.attrsPayload]
  | AdvancedOrigin =>
      rcases ho : p.origin st₁ with _ | org
      · simp [ho, sentAttrs, Event.attrsPayload]
      · simp [ho, loopTail_trace, sentAttrs, Event.attrsPayload]
  | OriginAdvanceErr e =>
      rw [stepErrBranch_sentAttrs]
      rfl
  | StepFailed e =>
      rw [stepErrBranch_sentAttrs]
      rfl

/-- The produce loop never sends attributes itself; only process does,
after the loop has returned. -/
theorem produceNextSafePayload_sentAttrs {σ : Type} (p : PipelineModel σ)
    (hd : L2BlockInfo) :
    ∀ (fuel : Nat) (st : σ) r st' tr,
      produceNextSafePayload p hd fuel st = some (r, st', tr) → sentAttrs tr = [] := by
  intro fuel
  induction fuel with
  | zero =>
      intro st r st' tr h
      simp [produceNextSafePayload] at h
  | succ n ih =>
      intro st r st' tr h
      unfold produceNextSafePayload at h
      rcases hb : produceStepBody p hd st with ⟨out, tr₀⟩
      rw [hb] at h
      have htr₀ : sentAttrs tr₀ = [] := by
        have := produceStepBody_sentAttrs p hd st
        rw [hb] at this
        exact this
      cases out with
      | ret r₀ s₀ =>
          simp at h
          obtain ⟨_, _, htr⟩ := h
          rw [← htr]
          exact htr₀
      | cont s₀ =>
          rcases hrec : produceNextSafePayload p hd n s₀ with _ | ⟨r₁, st₁, tr₁⟩
          · simp [hrec] at h
          · simp [hrec] at h
            obtain ⟨_, _, htr⟩ := h
            rw [← htr, sentAttrs_append, htr₀, ih s₀ r₁ st₁ tr₁ hrec]
            rfl

/-- A concrete block at height n, for witnesses. -/
def bInfo (n : Nat) : BlockInfo :=
  { hash := n, number := n, parent_hash := n, timestamp := n }

/-- A concrete L2 block at height n, for witnesses. -/
def l2At (n : Nat) : L2BlockInfo :=
  { block_info := bInfo n, l1_origin := { number := n, hash := n }, seq_num := 0 }

/-- A concrete system config, for witnesses. -/
def sysCfg0 : SystemConfig := { batcher_address := 1, scalar := 2, gas_limit := 3 }

/-- Concrete payload attributes, for witnesses. -/
def attrs0 : OpAttributesWithParent :=
  { parent := l2At 5, payload := 42, is_last_in_span := true }

/-- A concrete pipeline over state Nat whose step always yields the
given result, for witnesses. -/
def constPipe (r : StepResult) : PipelineModel Nat :=
  { step := fun s _ => (r, s + 1)
    origin := fun _ => some (bInfo 7)
    next := fun s => (none, s)
    signal := fun s _ => (.ok (), s + 100)
    system_config_by_number := fun s _ => (.ok sysCfg0, s + 10) }

/-- A concrete pipeline over state Nat that prepares and yields
attributes on every step, for witnesses. -/
def attrsPipe : PipelineModel Nat :=
  { step := fun s _ => (.PreparedAttributes, s + 1)
    origin := fun _ => some (bInfo 7)
    next := fun s => (some attrs0, s + 1)
    signal := fun s _ => (.ok (), s + 100)
    system_config_by_number := fun s _ => (.ok sysCfg0, s + 10) }

/-- An actor state that is ready and targets safe head 5, over the
concrete Nat pipeline state 0, for witnesses. -/
def actorReady : ActorState Nat :=
  { pipeline := 0, l2_safe_head := l2At 5, engine_ready := true,
    sync_complete_closed := true }

/-- An environment whose engine safe head is at 9 and whose
attributes_out receiver is alive, for witnesses. -/
def envOk : ProcessEnv := { engineSafeHead := l2At 9, sendFails := false }

/-- An environment whose attributes_out receiver was dropped, for
witnesses. -/
def envDropped : ProcessEnv := { engineSafeHead := l2At 9, sendFails := true }

/-- Claim C1: for every processing tick, if engine_ready is false, or
the engine-reported safe head number is at most the actor's
l2_safe_head number, then process returns Ok without stepping the
pipeline, without sending anything on attributes_out, and with
l2_safe_head unchanged (the whole state and the trace are unchanged). -/
theorem c1_process_noop {σ : Type} (p : PipelineModel σ) (env : ProcessEnv)
    (fuel : Nat) (a : ActorState σ)
    (h : a.engine_ready = false ∨
         env.engineSafeHead.block_info.number ≤ a.l2_safe_head.block_info.number) :
    process p env fuel a = some (.ok (), a, []) := by
  rcases h with h | h
  · simp [process, h]
  · by_cases hr : a.engine_ready
    · simp [process, hr, h]
    · simp [process, hr]

/-- Witness for C1 at a freshly constructed actor, whose engine_ready
flag is false. -/
theorem c1_witness :
    process (constPipe .PreparedAttributes) envOk 3 (DerivationActor.new 0 (l2At 5)) =
      some (.ok (), DerivationActor.new 0 (l2At 5), []) :=
  c1_process_noop (constPipe .PreparedAttributes) envOk 3
    (DerivationActor.new 0 (l2At 5)) (Or.inl rfl)

/-- Claim C2: when the engine is ready, the engine safe head is ahead
of l2_safe_head, and produce_next_safe_payload returns attributes, then
process sends exactly those attributes on attributes_out and sets
l2_safe_head to the current value of the engine safe head watch. -/
theorem c2_process_sends {σ : Type} (p : PipelineModel σ) (env : ProcessEnv)
    (fuel : Nat) (a : ActorState σ) (attrs : OpAttributesWithParent) (st' : σ)
    (tr : List Event)
    (hready : a.engine_ready = true)
    (hahead : a.l2_safe_head.block_info.number < env.engineSafeHead.block_info.number)
    (hprod : produceNextSafePayload p a.l2_safe_head fuel a.pipeline =
             some (.ok attrs, st', tr))
    (hsend : env.sendFails = false) :
    process p env fuel a =
      some (.ok (), { a with pipeline := st', l2_safe_head := env.engineSafeHead },
        tr ++ [.attrsOut attrs]) ∧
    sentAttrs (tr ++ [.attrsOut attrs]) = [attrs] := by
  have hle : ¬ env.engineSafeHead.block_info.number ≤ a.l2_safe_head.block_info.number :=
    Nat.not_le.mpr hahead
  constructor
  · simp [process, hready, hle, hprod, hsend]
  · rw [sentAttrs_append,
      produceNextSafePayload_sentAttrs p a.l2_safe_head fuel a.pipeline _ st' tr hprod]
    rfl

/-- Witness for C2 with a pipeline that prepares attributes on the
first step. -/
theorem c2_witness :
    process attrsPipe envOk 1 actorReady =
      some (.ok (),
        { actorReady with pipeline := 2, l2_safe_head := envOk.engineSafeHead },
        [.stepCall (l2At 5)] ++ [.attrsOut attrs0]) ∧
    sentAttrs ([.stepCall (l2At 5)] ++ [.attrsOut attrs0]) = [attrs0] :=
  c2_process_sends attrsPipe envOk 1 actorReady attrs0 2 [.stepCall (l2At 5)]
    rfl (by decide) rfl rfl

/-- Claim C3: when a pipeline step fails with a Reset error, the actor
fetches the system config at l2_safe_head.number through the pipeline,
then signals the pipeline with an ActivationSignal on
HoloceneActivation and a ResetSignal otherwise, carrying the safe
head, the pipeline's current origin and the fetched config, and then
continues the stepping loop rather than returning. -/
theorem c3_reset_branch {σ : Type} (p : PipelineModel σ) (hd : L2BlockInfo)
    (st st₁ : σ) (re : ResetError) (cfg : SystemConfig) (st₂ : σ)
    (org : BlockInfo) (st₃ st₄ : σ)
    (hstep : p.step st hd = (.StepFailed (.Reset re), st₁) ∨
             p.step st hd = (.OriginAdvanceErr (.Reset re), st₁))
    (hcfg : p.system_config_by_number st₁ hd.block_info.number = (.ok cfg, st₂))
    (horg : p.origin st₂ = some org)
    (hsig : p.signal st₂ (resetBranchSignal re hd org cfg) = (.ok (), st₃))
    (hnext : p.next st₃ = (none, st₄)) :
    produceStepBody p hd st =
      (.cont st₄,
       [.stepCall hd, .cfgFetch hd.block_info.number,
        .sigSent (resetBranchSignal re hd org cfg)]) := by
  rcases hstep with h | h <;>
    simp [produceStepBody, h, stepErrBranch, hcfg, horg, hsig, loopTail, hnext]

/-- Witness for C3 with a Holocene activation reset on a concrete
pipeline. -/
theorem c3_witness :
    produceStepBody (constPipe (.StepFailed (.Reset .HoloceneActivation))) (l2At 5) 0 =
      (.cont 111,
       [.stepCall (l2At 5), .cfgFetch 5,
        .sigSent (resetBranchSignal .HoloceneActivation (l2At 5) (bInfo 7) sysCfg0)]) :=
  c3_reset_branch (constPipe (.StepFailed (.Reset .HoloceneActivation))) (l2At 5)
    0 1 .HoloceneActivation sysCfg0 11 (bInfo 7) 111 111
    (Or.inl rfl) rfl rfl rfl rfl

/-- Claim C4: a step failure with Temporary(NotEnoughData) makes the
loop continue stepping without returning (and without reaching the
next() check), any other Temporary failure makes
produce_next_safe_payload return the Yield error, and process absorbs
Yield by returning Ok with nothing sent and l2_safe_head unchanged. -/
theorem c4_temporary (σ : Type) :
    (∀ (p : PipelineModel σ) (hd : L2BlockInfo) (st st₁ : σ),
       (p.step st hd = (.StepFailed (.Temporary .NotEnoughData), st₁) ∨
        p.step st hd = (.OriginAdvanceErr (.Temporary .NotEnoughData), st₁)) →
       produceStepBody p hd st = (.cont st₁, [.stepCall hd])) ∧
    (∀ (p : PipelineModel σ) (hd : L2BlockInfo) (st st₁ : σ) (pe : PipelineError),
       pe ≠ PipelineError.NotEnoughData →
       (p.step st hd = (.StepFailed (.Temporary pe), st₁) ∨
        p.step st hd = (.OriginAdvanceErr (.Temporary pe), st₁)) →
       produceStepBody p hd st = (.ret (.error .Yield) st₁, [.stepCall hd])) ∧
    (∀ (p : PipelineModel σ) (env : ProcessEnv) (fuel : Nat) (a : ActorState σ)
       (st' : σ) (tr : List Event),
       a.engine_ready = true →
       a.l2_safe_head.block_info.number < env.engineSafeHead.block_info.number →
       produceNextSafePayload p a.l2_safe_head fuel a.pipeline =
         some (.error .Yield, st', tr) →
       process p env fuel a = some (.ok (), { a with pipeline := st' }, tr) ∧
       sentAttrs tr = [] ∧
       ({ a with pipeline := st' } : ActorState σ).l2_safe_head = a.l2_safe_head) := by
  refine ⟨?_, ?_, ?_⟩
  · intro p hd st st₁ h
    rcases h with h | h <;> simp [produceStepBody, h, stepErrBranch]
  · intro p hd st st₁ pe hne h
    rcases h with h | h <;> simp [produceStepBody, h, stepErrBranch, hne]
  · intro p env fuel a st' tr hready hahead hprod
    have hle : ¬ env.engineSafeHead.block_info.number ≤
        a.l2_safe_head.block_info.number := Nat.not_le.mpr hahead
    refine ⟨?_, ?_, rfl⟩
    · simp [process, hready, hle, hprod]
    · exact produceNextSafePayload_sentAttrs p a.l2_safe_head fuel a.pipeline
        _ st' tr hprod

/-- Witness for C4: NotEnoughData continues, Eof yields, and process
absorbs the yield. -/
theorem c4_witness :
    produceStepBody (constPipe (.StepFailed (.Temporary .NotEnoughData))) (l2At 5) 0 =
      (.cont 1, [.stepCall (l2At 5)]) ∧
    produceStepBody (constPipe (.StepFailed (.Temporary .Eof))) (l2At 5) 0 =
      (.ret (.error .Yield) 1, [.stepCall (l2At 5)]) ∧
    (process (constPipe (.StepFailed (.Temporary .Eof))) envOk 1 actorReady =
       some (.ok (), { actorReady with pipeline := 1 }, [.stepCall (l2At 5)]) ∧
     sentAttrs [.stepCall (l2At 5)] = [] ∧
     ({ actorReady with pipeline := 1 } : ActorState Nat).l2_safe_head =
       actorReady.l2_safe_head) :=
  ⟨(c4_temporary Nat).1 _ (l2At 5) 0 1 (Or.inl rfl),
   (c4_temporary Nat).2.1 _ (l2At 5) 0 1 .Eof (by decide) (Or.inl rfl),
   (c4_temporary Nat).2.2 _ envOk 1 actorReady 1 [.stepCall (l2At 5)]
     rfl (by decide) rfl⟩

/-- Claim C5: a Critical step failure makes produce_next_safe_payload
return that error, process propagates any non-Yield error from the
loop, a failed send on attributes_out makes process return the Sender
error, and a process error makes the start loop exit with that error. -/
theorem c5_critical_and_sender (σ : Type) :
    (∀ (p : PipelineModel σ) (hd : L2BlockInfo) (st st₁ : σ) (pe : PipelineError),
       (p.step st hd = (.StepFailed (.Critical pe), st₁) ∨
        p.step st hd = (.OriginAdvanceErr (.Critical pe), st₁)) →
       produceStepBody p hd st =
         (.ret (.error (.Pipeline (.Critical pe))) st₁, [.stepCall hd])) ∧
    (∀ (p : PipelineModel σ) (env : ProcessEnv) (fuel : Nat) (a : ActorState σ)
       (k : PipelineErrorKind) (st' : σ) (tr : List Event),
       a.engine_ready = true →
       a.l2_safe_head.block_info.number < env.engineSafeHead.block_info.number →
       produceNextSafePayload p a.l2_safe_head fuel a.pipeline =
         some (.error (.Pipeline k), st', tr) →
       process p env fuel a =
         some (.error (.Pipeline k), { a with pipeline := st' }, tr)) ∧
    (∀ (p : PipelineModel σ) (env : ProcessEnv) (fuel : Nat) (a : ActorState σ)
       (attrs : OpAttributesWithParent) (st' : σ) (tr : List Event),
       a.engine_ready = true →
       a.l2_safe_head.block_info.number < env.engineSafeHead.block_info.number →
       produceNextSafePayload p a.l2_safe_head fuel a.pipeline =
         some (.ok attrs, st', tr) →
       env.sendFails = true →
       process p env fuel a = some (.error .Sender, { a with pipeline := st' }, tr)) ∧
    (∀ (p : PipelineModel σ) (env : ProcessEnv) (fuel : Nat) (a : ActorState σ)
       (e : DerivationError) (a' : ActorState σ) (tr : List Event) (m : BlockInfo),
       process p env fuel a = some (.error e, a', tr) →
       startIter p env fuel a (.l1HeadUpdate (some m)) =
         some (.exit (.error e), tr)) := by
  refine ⟨?_, ?_, ?_, ?_⟩
  · intro p hd st st₁ pe h
    rcases h with h | h <;> simp [produceStepBody, h, stepErrBranch]
  · intro p env fuel a k st' tr hready hahead hprod
    have hle : ¬ env.engineSafeHead.block_info.number ≤
        a.l2_safe_head.block_info.number := Nat.not_le.mpr hahead
    simp [process, hready, hle, hprod]
  · intro p env fuel a attrs st' tr hready hahead hprod hsend
    have hle : ¬ env.engineSafeHead.block_info.number ≤
        a.l2_safe_head.block_info.number := Nat.not_le.mpr hahead
    simp [process, hready, hle, hprod, hsend]
  · intro p env fuel a e a' tr m h
    simp [startIter, h]

/-- Witness for C5 with a critically failing pipeline and a dropped
attributes_out receiver. -/
theorem c5_witness :
    produceStepBody (constPipe (.StepFailed (.Critical (.StageError 1)))) (l2At 5) 0 =
      (.ret (.error (.Pipeline (.Critical (.StageError 1)))) 1, [.stepCall (l2At 5)]) ∧
    process (constPipe (.StepFailed (.Critical (.StageError 1)))) envOk 1 actorReady =
      some (.error (.Pipeline (.Critical (.StageError 1))),
        { actorReady with pipeline := 1 }, [.stepCall (l2At 5)]) ∧
    process attrsPipe envDropped 1 actorReady =
      some (.error .Sender, { actorReady with pipeline := 2 }, [.stepCall (l2At 5)]) ∧
    startIter (constPipe (.StepFailed (.Critical (.StageError 1)))) envOk 1 actorReady
        (.l1HeadUpdate (some (bInfo 1))) =
      some (.exit (.error (.Pipeline (.Critical (.StageError 1)))), [.stepCall (l2At 5)]) :=
  ⟨(c5_critical_and_sender Nat).1 _ (l2At 5) 0 1 (.StageError 1) (Or.inl rfl),
   (c5_critical_and_sender Nat).2.1 _ envOk 1 actorReady (.Critical (.StageError 1))
     1 [.stepCall (l2At 5)] rfl (by decide) rfl,
   (c5_critical_and_sender Nat).2.2.1 attrsPipe envDropped 1 actorReady attrs0 2
     [.stepCall (l2At 5)] rfl (by decide) rfl rfl,
   (c5_critical_and_sender Nat).2.2.2 _ envOk 1 actorReady
     (.Pipeline (.Critical (.StageError 1))) { actorReady with pipeline := 1 }
     [.stepCall (l2At 5)] (bInfo 1) rfl⟩

/-- A processing tick never changes the engine_ready flag or the
closed-state of the sync_complete receiver. -/
theorem process_flags {σ : Type} (p : PipelineModel σ) (env : ProcessEnv)
    (fuel : Nat) (a : ActorState σ) (r : Except DerivationError Unit)
    (a' : ActorState σ) (tr : List Event)
    (h : process p env fuel a = some (r, a', tr)) :
    a'.engine_ready = a.engine_ready ∧
    a'.sync_complete_closed = a.sync_complete_closed := by
  unfold process at h
  repeat' split at h
  all_goals
    first
    | exact Option.noConfusion h
    | (injection h with h
       injection h with h₁ h
       injection h with h₂ h₃
       subst h₂
       exact ⟨rfl, rfl⟩)

/-- Claim C6: engine_ready starts false at construction, a first
sync-complete receipt flips it to true, closes the receiver and runs a
processing tick, a second receipt is ignored, and no select iteration
ever sets the flag back to false; only the sync-complete arm sets it. -/
theorem c6_engine_ready (σ : Type) :
    (∀ (pl : σ) (hd : L2BlockInfo),
       (DerivationActor.new pl hd).engine_ready = false ∧
       (DerivationActor.new pl hd).sync_complete_closed = false) ∧
    (∀ (p : PipelineModel σ) (env : ProcessEnv) (fuel : Nat) (a : ActorState σ),
       a.engine_ready = true →
       startIter p env fuel a .syncComplete = some (.cont a, [])) ∧
    (∀ (p : PipelineModel σ) (env : ProcessEnv) (fuel : Nat) (a : ActorState σ)
       (u : Unit) (a' : ActorState σ) (tr : List Event),
       a.engine_ready = false →
       process p env fuel
           { a with engine_ready := true, sync_complete_closed := true } =
         some (.ok u, a', tr) →
       startIter p env fuel a .syncComplete = some (.cont a', tr) ∧
       a'.engine_ready = true ∧ a'.sync_complete_closed = true) ∧
    (∀ (p : PipelineModel σ) (env : ProcessEnv) (fuel : Nat) (a : ActorState σ)
       (ev : ActorInbound) (a' : ActorState σ) (tr : List Event),
       a.engine_ready = true →
       startIter p env fuel a ev = some (.cont a', tr) →
       a'.engine_ready = true) ∧
    (∀ (p : PipelineModel σ) (env : ProcessEnv) (fuel : Nat) (a : ActorState σ)
       (ev : ActorInbound) (a' : ActorState σ) (tr : List Event),
       a.engine_ready = false →
       startIter p env fuel a ev = some (.cont a', tr) →
       a'.engine_ready = true →
       ev = ActorInbound.syncComplete) := by
  refine ⟨?_, ?_, ?_, ?_, ?_⟩
  · intro pl hd
    exact ⟨rfl, rfl⟩
  · intro p env fuel a h
    simp [startIter, h]
  · intro p env fuel a u a' tr hnr hp
    refine ⟨by simp [startIter, hnr, hp], ?_, ?_⟩
    · have := (process_flags p env fuel
        { a with engine_ready := true, sync_complete_closed := true }
        (.ok u) a' tr hp).1
      simpa using this
    · have := (process_flags p env fuel
        { a with engine_ready := true, sync_complete_closed := true }
        (.ok u) a' tr hp).2
      simpa using this
  · intro p env fuel a ev a' tr hr h
    cases ev with
    | cancelled => simp [startIter] at h
    | syncComplete =>
        simp [startIter, hr] at h
        rw [← h.1]
        exact hr
    | l1HeadUpdate msg =>
        cases msg with
        | none => simp [startIter] at h
        | some m =>
            rcases hp : process p env fuel a with _ | ⟨r₀, a₀, tr₀⟩
            · simp [startIter, hp] at h
            · cases r₀ with
              | ok u =>
                  simp [startIter, hp] at h
                  rw [← h.1]
                  exact (process_flags p env fuel a (.ok u) a₀ tr₀ hp).1.trans hr
              | error e => simp [startIter, hp] at h
    | signalMsg s =>
        cases s with
        | none => simp [startIter] at h
        | some sig =>
            simp [startIter, signalHandle] at h
            rw [← h.1]
            exact hr
  · intro p env fuel a ev a' tr hnr h htrue
    cases ev with
    | cancelled => simp [startIter] at h
    | syncComplete => rfl
    | l1HeadUpdate msg =>
        cases msg with
        | none => simp [startIter] at h
        | some m =>
            rcases hp : process p env fuel a with _ | ⟨r₀, a₀, tr₀⟩
            · simp [startIter, hp] at h
            · cases r₀ with
              | ok u =>
                  simp [startIter, hp] at h
                  rw [← h.1] at htrue
                  rw [(process_flags p env fuel a (.ok u) a₀ tr₀ hp).1, hnr] at htrue
                  exact absurd htrue (by simp)
              | error e => simp [startIter, hp] at h
    | signalMsg s =>
        cases s with
        | none => simp [startIter] at h
        | some sig =>
            simp [startIter, signalHandle] at h
            rw [← h.1] at htrue
            rw [hnr] at htrue
            exact absurd htrue (by simp)

/-- Witness for C6 at concrete actors: a fresh actor, a ready actor
receiving a second sync-complete, and a first receipt running a tick. -/
theorem c6_witness :
    ((DerivationActor.new 0 (l2At 5) : ActorState Nat).engine_ready = false ∧
     (DerivationActor.new 0 (l2At 5) : ActorState Nat).sync_complete_closed = false) ∧
    startIter attrsPipe envOk 1 actorReady .syncComplete = some (.cont actorReady, []) ∧
    (startIter attrsPipe envOk 1 (DerivationActor.new 0 (l2At 5)) .syncComplete =
       some (.cont
         { pipeline := 2, l2_safe_head := l2At 9, engine_ready := true,
           sync_complete_closed := true },
         [Event.stepCall (l2At 5)] ++ [Event.attrsOut attrs0]) ∧
     ({ pipeline := 2, l2_safe_head := l2At 9, engine_ready := true,
        sync_complete_closed := true } : ActorState Nat).engine_ready = true ∧
     ({ pipeline := 2, l2_safe_head := l2At 9, engine_ready := true,
        sync_complete_closed := true } : ActorState Nat).sync_complete_closed = true) ∧
    ({ actorReady with pipeline := 1 } : ActorState Nat).engine_ready = true ∧
    ActorInbound.syncComplete = ActorInbound.syncComplete :=
  ⟨(c6_engine_ready Nat).1 0 (l2At 5),
   (c6_engine_ready Nat).2.1 attrsPipe envOk 1 actorReady rfl,
   (c6_engine_ready Nat).2.2.1 attrsPipe envOk 1 (DerivationActor.new 0 (l2At 5))
     () { pipeline := 2, l2_safe_head := l2At 9, engine_ready := true,
          sync_complete_closed := true }
     ([Event.stepCall (l2At 5)] ++ [Event.attrsOut attrs0]) rfl rfl,
   (c6_engine_ready Nat).2.2.2.1 attrsPipe envOk 1 actorReady
     (.signalMsg (some .FlushChannel)) { actorReady with pipeline := 100 }
     [.sigSent .FlushChannel] rfl rfl,
   (c6_engine_ready Nat).2.2.2.2 attrsPipe envOk 1 (DerivationActor.new 0 (l2At 5))
     .syncComplete
     { pipeline := 2, l2_safe_head := l2At 9, engine_ready := true,
       sync_complete_closed := true }
     ([Event.stepCall (l2At 5)] ++ [Event.attrsOut attrs0]) rfl rfl rfl⟩

/-- Claim C7: every Signal received on derivation_signal_rx is passed
unchanged to the pipeline's signal handler, and whether or not the
handler errors the actor continues its select loop. -/
theorem c7_signal_forward {σ : Type} (p : PipelineModel σ) (env : ProcessEnv)
    (fuel : Nat) (a : ActorState σ) (s : Signal) :
    startIter p env fuel a (.signalMsg (some s)) =
      some (.cont { a with pipeline := (p.signal a.pipeline s).2 }, [.sigSent s]) := by
  simp [startIter, signalHandle]

/-- Claim C8: a closed l1_head_updates channel makes the start loop
return Ok, while a closed derivation_signal_rx channel makes it return
the SignalReceiveFailed error. -/
theorem c8_channel_closure {σ : Type} (p : PipelineModel σ) (env : ProcessEnv)
    (fuel : Nat) (a : ActorState σ) :
    startIter p env fuel a (.l1HeadUpdate none) = some (.exit (.ok ()), []) ∧
    startIter p env fuel a (.signalMsg none) =
      some (.exit (.error .SignalReceiveFailed), []) :=
  ⟨rfl, rfl⟩

/-- A concrete rollup config, for witnesses. -/
def rollupCfg0 : RollupConfig :=
  { block_time := 2, channel_timeout := 300, seq_window_size := 3600 }

/-- A fully populated builder over trivial provider types, for
witnesses. -/
def pbFull : PipelineBuilder Unit Unit Unit Unit :=
  { l2_chain_provider := some ()
    dap_source := some ()
    chain_provider := some ()
    builder := some ()
    origin := some (bInfo 3)
    rollup_config := some rollupCfg0 }

/-- Counterexample to C9 as stated: the pipeline built by a fully
populated builder consists of eight nested stages, not seven. -/
theorem c9_counterexample :
    (PipelineBuilder.build pbFull).stageCount = 8 ∧
    (PipelineBuilder.build pbFull).stageCount ≠ 7 := by
  constructor
  · rfl
  · intro h
    have h8 : (PipelineBuilder.build pbFull).stageCount = 8 := rfl
    rw [h8] at h
    exact absurd h (by decide)

/-- Claim C9 as amended: build composes the pipeline as a linear chain
of eight streaming stages nested in the order L1Traversal, L1Retrieval,
FrameQueue, ChannelProvider, ChannelReader, BatchStream, BatchProvider,
AttributesQueue, each constructed with its predecessor as source, with
the L1Traversal block set to the configured origin. -/
theorem c9_build_composition (B P T D : Type) (cfg : RollupConfig) (cp : P)
    (l2 : T) (dap : D) (ab : B) (org : BlockInfo) :
    PipelineBuilder.build
        { l2_chain_provider := some l2, dap_source := some dap,
          chain_provider := some cp, builder := some ab,
          origin := some org, rollup_config := some cfg } =
      BuildResult.ok (DerivationPipeline.new
        (AttributesQueue.new cfg
          (BatchProvider.new cfg
            (BatchStream.new
              (ChannelReader.new
                (ChannelProvider.new cfg
                  (FrameQueue.new
                    (L1Retrieval.new
                      { L1Traversal.new cp cfg with block := some org } dap)
                    cfg))
                cfg)
              cfg l2)
            l2)
          ab)
        cfg l2) ∧
    (AttributesQueue.new cfg
        (BatchProvider.new cfg
          (BatchStream.new
            (ChannelReader.new
              (ChannelProvider.new cfg
                (FrameQueue.new
                  (L1Retrieval.new
                    { L1Traversal.new cp cfg with block := some org } dap)
                  cfg))
              cfg)
            cfg l2)
          l2)
        ab : AttributesQueueStage D P T B).stageCount = 8 :=
  ⟨rfl, rfl⟩

/-- Claim C10: build panics whenever a required builder field is
unset; its return type is the pipeline itself, so a missing field can
only surface as a panic, never as an error value. -/
theorem c10_build_panics {B P T D : Type} (b : PipelineBuilder B P T D)
    (h : b.rollup_config = none ∨ b.chain_provider = none ∨
         b.l2_chain_provider = none ∨ b.dap_source = none ∨
         b.builder = none ∨ b.origin = none) :
    ∃ msg, b.build = BuildResult.panicked msg := by
  obtain ⟨l2, dap, cp, ab, org, rc⟩ := b
  unfold PipelineBuilder.build
  rcases rc with _ | rc
  · exact ⟨_, rfl⟩
  rcases cp with _ | cp
  · exact ⟨_, rfl⟩
  rcases l2 with _ | l2
  · exact ⟨_, rfl⟩
  rcases dap with _ | dap
  · exact ⟨_, rfl⟩
  rcases ab with _ | ab
  · exact ⟨_, rfl⟩
  rcases org with _ | org
  · exact ⟨_, rfl⟩
  · simp at h

/-- Witness for C10 at a builder with every field unset. -/
theorem c10_witness :
    ∃ msg, (PipelineBuilder.new Unit Unit Unit Unit).build =
      BuildResult.panicked msg :=
  c10_build_panics (PipelineBuilder.new Unit Unit Unit Unit) (Or.inl rfl)
